import Mathlib

/-!
Verification of the k8s-vs-lambda NLP benchmark against its design notes.

The development shallowly embeds the three core pieces of the repository:

* the resilient dispatcher `SentimentAnalysisService.analyze` together with
  the target resolver `_get_endpoint` (src/backend/services.py),
* the HTTP wrapper `analyze_sentiment` (src/backend/main.py),
* the benchmark harness `run_benchmark`, the statistics reducer `log_stats`
  (which calls Python's `statistics.quantiles` with its default
  method `exclusive`), and the final verdict of `main`
  (src/load-testing/benchmark.py).

Machine floats are modelled as rationals; the network is modelled as a
function from the attempt index to the observed per-attempt result.
-/

/-- Result of one HTTP POST issued by the dispatcher, as classified by the
branches of `SentimentAnalysisService.analyze`: HTTP 200 (with the decoded
body abstracted to a string), HTTP 504, any other status code, a client-side
timeout (`requests.exceptions.Timeout`), or a connection-level failure
(`requests.exceptions.ConnectionError`). -/
inductive AttemptResult where
  | ok (body : String)
  | status504
  | otherStatus (code : Nat) (message : String)
  | requestTimeout
  | connectionError (message : String)
  deriving DecidableEq, Repr

/-- Terminal result of one dispatch call: either the success dictionary
(carrying `retry_attempts`, the attempt index) or one of the raised
exceptions, classified by the raise site in `analyze`. -/
inductive Outcome where
  | success (body : String) (retryAttempts : Nat)
  | exhausted (lastError : String)
  | remoteError (code : Nat) (message : String)
  | unreachable (message : String)
  | loopFailed (lastError : Option String)
  deriving DecidableEq, Repr

/-- The `last_error` string set by the HTTP 504 branch. -/
def msg504 : String := "504 Gateway Timeout"

/-- The `last_error` string set by the `requests.exceptions.Timeout` branch. -/
def msgTimeout : String := "Request Timeout"

/-- Transient attempt results: HTTP 504 and the client-side request timeout.
These are the only two branches of `analyze` that sleep and loop again. -/
def isTransient : AttemptResult → Bool
  | AttemptResult.status504 => true
  | AttemptResult.requestTimeout => true
  | _ => false

/-- The retry loop `for attempt in range(settings.MAX_RETRIES)` of
`SentimentAnalysisService.analyze` (src/backend/services.py, lines 47-100).
`remaining` is the number of loop iterations still available
(`maxRetries - attempt`; the loop guard `attempt < MAX_RETRIES` is
`remaining > 0`), `attempt` the current zero-based attempt index, `backoff`
the current value of the `backoff` variable and `lastError` the current
`last_error`.  Returns the outcome, the list of back-off sleeps performed
(in order), and the total number of attempts issued. -/
def analyzeGo (maxRetries : Nat) (results : Nat → AttemptResult) :
    Nat → Nat → ℚ → Option String → Outcome × List ℚ × Nat
  | 0, attempt, _backoff, lastError => (Outcome.loopFailed lastError, [], attempt)
  | remaining + 1, attempt, backoff, _lastError =>
    match results attempt with
    | AttemptResult.ok body => (Outcome.success body attempt, [], attempt + 1)
    | AttemptResult.status504 =>
      if attempt < maxRetries - 1 then
        let r := analyzeGo maxRetries results remaining (attempt + 1)
          (backoff * (3 / 2)) (some msg504)
        (r.1, backoff :: r.2.1, r.2.2)
      else
        (Outcome.exhausted msg504, [], attempt + 1)
    | AttemptResult.requestTimeout =>
      if attempt < maxRetries - 1 then
        let r := analyzeGo maxRetries results remaining (attempt + 1)
          (backoff * (3 / 2)) (some msgTimeout)
        (r.1, backoff :: r.2.1, r.2.2)
      else
        (Outcome.exhausted msgTimeout, [], attempt + 1)
    | AttemptResult.otherStatus code message =>
        (Outcome.remoteError code message, [], attempt + 1)
    | AttemptResult.connectionError message =>
        (Outcome.unreachable message, [], attempt + 1)

/-- One dispatch call of `SentimentAnalysisService.analyze` after endpoint
resolution succeeded: the loop starts at attempt 0 with
`backoff = settings.INITIAL_BACKOFF` and `last_error = None`. -/
def analyze (maxRetries : Nat) (initialBackoff : ℚ)
    (results : Nat → AttemptResult) : Outcome × List ℚ × Nat :=
  analyzeGo maxRetries results maxRetries 0 initialBackoff none

/-- The sleeps recorded by the retry loop form a geometric sequence in the
current `backoff` value with ratio 3/2. -/
theorem analyzeGo_sleeps (maxRetries : Nat) (results : Nat → AttemptResult) :
    ∀ (remaining attempt : Nat) (backoff : ℚ) (lastError : Option String),
      ∃ m, (analyzeGo maxRetries results remaining attempt backoff lastError).2.1
        = (List.range m).map (fun i => backoff * (3 / 2) ^ i) := by
  intro remaining
  induction remaining with
  | zero =>
    intro attempt backoff lastError
    exact ⟨0, rfl⟩
  | succ k ih =>
    intro attempt backoff lastError
    cases hR : results attempt with
    | ok body =>
      exact ⟨0, by simp [analyzeGo, hR]⟩
    | status504 =>
      by_cases hlt : attempt < maxRetries - 1
      · obtain ⟨m, hm⟩ := ih (attempt + 1) (backoff * (3 / 2)) (some msg504)
        refine ⟨m + 1, ?_⟩
        simp only [analyzeGo, hR, if_pos hlt]
        rw [hm, List.range_succ_eq_map, List.map_cons, List.map_map]
        congr 1
        · rw [pow_zero, mul_one]
        · apply List.map_congr_left
          intro i _
          simp only [Function.comp_apply, pow_succ]
          ring
      · exact ⟨0, by simp [analyzeGo, hR, if_neg hlt]⟩
    | requestTimeout =>
      by_cases hlt : attempt < maxRetries - 1
      · obtain ⟨m, hm⟩ := ih (attempt + 1) (backoff * (3 / 2)) (some msgTimeout)
        refine ⟨m + 1, ?_⟩
        simp only [analyzeGo, hR, if_pos hlt]
        rw [hm, List.range_succ_eq_map, List.map_cons, List.map_map]
        congr 1
        · rw [pow_zero, mul_one]
        · apply List.map_congr_left
          intro i _
          simp only [Function.comp_apply, pow_succ]
          ring
      · exact ⟨0, by simp [analyzeGo, hR, if_neg hlt]⟩
    | otherStatus code message =>
      exact ⟨0, by simp [analyzeGo, hR]⟩
    | connectionError message =>
      exact ⟨0, by simp [analyzeGo, hR]⟩

/-- The number of attempts issued by the loop is bounded by the attempts
already made plus the remaining loop iterations. -/
theorem analyzeGo_attempts_le (maxRetries : Nat) (results : Nat → AttemptResult) :
    ∀ (remaining attempt : Nat) (backoff : ℚ) (lastError : Option String),
      (analyzeGo maxRetries results remaining attempt backoff lastError).2.2
        ≤ attempt + remaining := by
  intro remaining
  induction remaining with
  | zero =>
    intro attempt backoff lastError
    simp [analyzeGo]
  | succ k ih =>
    intro attempt backoff lastError
    cases hR : results attempt with
    | ok body =>
      simp only [analyzeGo, hR]
      omega
    | status504 =>
      by_cases hlt : attempt < maxRetries - 1
      · simp only [analyzeGo, hR, if_pos hlt]
        have := ih (attempt + 1) (backoff * (3 / 2)) (some msg504)
        omega
      · simp only [analyzeGo, hR, if_neg hlt]
        omega
    | requestTimeout =>
      by_cases hlt : attempt < maxRetries - 1
      · simp only [analyzeGo, hR, if_pos hlt]
        have := ih (attempt + 1) (backoff * (3 / 2)) (some msgTimeout)
        omega
      · simp only [analyzeGo, hR, if_neg hlt]
        omega
    | otherStatus code message =>
      simp only [analyzeGo, hR]
      omega
    | connectionError message =>
      simp only [analyzeGo, hR]
      omega

/-- When the loop resolves to a success at attempt index `r`, every attempt
before `r` (and at or after the starting index) observed a transient result,
the attempt at `r` returned HTTP 200, and `r + 1` attempts were issued. -/
theorem analyzeGo_success (maxRetries : Nat) (results : Nat → AttemptResult) :
    ∀ (remaining attempt : Nat) (backoff : ℚ) (lastError : Option String)
      (body : String) (r : Nat),
      (analyzeGo maxRetries results remaining attempt backoff lastError).1
        = Outcome.success body r →
      attempt ≤ r ∧
      (∀ i, attempt ≤ i → i < r → isTransient (results i) = true) ∧
      results r = AttemptResult.ok body ∧
      (analyzeGo maxRetries results remaining attempt backoff lastError).2.2 = r + 1 := by
  intro remaining
  induction remaining with
  | zero =>
    intro attempt backoff lastError body r h
    simp [analyzeGo] at h
  | succ k ih =>
    intro attempt backoff lastError body r h
    cases hR : results attempt with
    | ok b =>
      have h' : Outcome.success b attempt = Outcome.success body r := by
        simpa only [analyzeGo, hR] using h
      injection h' with hb hr
      subst hr
      refine ⟨le_refl _, ?_, ?_, ?_⟩
      · intro i h1 h2
        omega
      · rw [hR, hb]
      · simp only [analyzeGo, hR]
    | status504 =>
      by_cases hlt : attempt < maxRetries - 1
      · simp only [analyzeGo, hR, if_pos hlt] at h ⊢
        obtain ⟨h1, h2, h3, h4⟩ :=
          ih (attempt + 1) (backoff * (3 / 2)) (some msg504) body r h
        refine ⟨by omega, ?_, h3, h4⟩
        intro i hi1 hi2
        rcases Nat.eq_or_lt_of_le hi1 with heq | hlt2
        · rw [← heq, hR]
          rfl
        · exact h2 i hlt2 hi2
      · simp [analyzeGo, hR, if_neg hlt] at h
    | requestTimeout =>
      by_cases hlt : attempt < maxRetries - 1
      · simp only [analyzeGo, hR, if_pos hlt] at h ⊢
        obtain ⟨h1, h2, h3, h4⟩ :=
          ih (attempt + 1) (backoff * (3 / 2)) (some msgTimeout) body r h
        refine ⟨by omega, ?_, h3, h4⟩
        intro i hi1 hi2
        rcases Nat.eq_or_lt_of_le hi1 with heq | hlt2
        · rw [← heq, hR]
          rfl
        · exact h2 i hlt2 hi2
      · simp [analyzeGo, hR, if_neg hlt] at h
    | otherStatus code message =>
      simp [analyzeGo, hR] at h
    | connectionError message =>
      simp [analyzeGo, hR] at h

/-- An endpoint that answers every attempt with HTTP 504. -/
def alwaysTimeout504 : Nat → AttemptResult := fun _ => AttemptResult.status504

/-- An endpoint that refuses every connection. -/
def alwaysConnRefused : Nat → AttemptResult :=
  fun _ => AttemptResult.connectionError "connection refused"

/-- An endpoint that answers HTTP 504 twice and then HTTP 200. -/
def twice504ThenOk : Nat → AttemptResult :=
  fun i => if i < 2 then AttemptResult.status504 else AttemptResult.ok "POSITIVE"

/-- Claim C1: in every dispatch call with initial back-off `b` (and the
hard-coded multiplier 1.5), the sleep before retry attempt `k` (0-indexed
over the sleeps) equals `b * 1.5 ^ k`, the back-off value is monotonically
non-decreasing over the call's lifetime, and the retry loop performs at most
`maxRetries` total attempts. -/
theorem analyze_backoff_sequence (maxRetries : Nat) (b : ℚ)
    (results : Nat → AttemptResult) (hb : 0 ≤ b) :
    (∀ k (hk : k < (analyze maxRetries b results).2.1.length),
        (analyze maxRetries b results).2.1.get ⟨k, hk⟩ = b * (3 / 2) ^ k) ∧
    List.Pairwise (· ≤ ·) (analyze maxRetries b results).2.1 ∧
    (analyze maxRetries b results).2.2 ≤ maxRetries := by
  obtain ⟨m, hm⟩ := analyzeGo_sleeps maxRetries results maxRetries 0 b none
  have hm' : (analyze maxRetries b results).2.1
      = (List.range m).map (fun i => b * (3 / 2) ^ i) := hm
  refine ⟨?_, ?_, ?_⟩
  · intro k hk
    rw [List.get_eq_getElem]
    have hk' : k < m := by
      rw [hm', List.length_map, List.length_range] at hk
      exact hk
    simp [hm', hk']
  · rw [hm']
    rw [List.pairwise_map]
    apply (List.pairwise_lt_range m).imp
    intro i j hij
    have h32 : (1 : ℚ) ≤ 3 / 2 := by norm_num
    exact mul_le_mul_of_nonneg_left (pow_le_pow_right₀ h32 hij.le) hb
  · have := analyzeGo_attempts_le maxRetries results maxRetries 0 b none
    simpa [analyze] using this

/-- Witness for C1: a concrete run (three attempts, all HTTP 504,
initial back-off 1) stays within three attempts and has non-decreasing
sleeps. -/
theorem analyze_backoff_sequence_witness :
    (0 : ℚ) ≤ 1 ∧
    List.Pairwise (· ≤ ·) (analyze 3 1 alwaysTimeout504).2.1 ∧
    (analyze 3 1 alwaysTimeout504).2.2 ≤ 3 :=
  ⟨by norm_num,
   (analyze_backoff_sequence 3 1 alwaysTimeout504 (by norm_num)).2.1,
   (analyze_backoff_sequence 3 1 alwaysTimeout504 (by norm_num)).2.2⟩

/-- Claim C3: when a dispatch call resolves to a success, its
`retry_attempts` field equals the number of prior transient failures
observed during that call — equivalently the zero-based attempt index at
which the HTTP 200 response was received — and exactly `retry_attempts + 1`
attempts were issued. -/
theorem analyze_success_retry_attempts (maxRetries : Nat) (b : ℚ)
    (results : Nat → AttemptResult) (body : String) (r : Nat)
    (sleeps : List ℚ) (n : Nat)
    (h : analyze maxRetries b results = (Outcome.success body r, sleeps, n)) :
    (∀ i, i < r → isTransient (results i) = true) ∧
    r = (List.range r).countP (fun i => isTransient (results i)) ∧
    results r = AttemptResult.ok body ∧
    n = r + 1 := by
  have h1 : (analyze maxRetries b results).1 = Outcome.success body r := by
    rw [h]
  obtain ⟨_, htrans, hok, hn⟩ :=
    analyzeGo_success maxRetries results maxRetries 0 b none body r h1
  have htrans' : ∀ i, i < r → isTransient (results i) = true :=
    fun i hi => htrans i (Nat.zero_le i) hi
  refine ⟨htrans', ?_, hok, ?_⟩
  · symm
    have hall : ∀ i ∈ List.range r, (fun i => isTransient (results i)) i = true :=
      fun i hi => htrans' i (List.mem_range.mp hi)
    have hc := List.countP_eq_length.mpr hall
    rw [List.length_range] at hc
    exact hc
  · have hn' : (analyze maxRetries b results).2.2 = r + 1 := hn
    rw [h] at hn'
    exact hn'

/-- Witness for C3: with three allowed attempts and an endpoint that
answers 504 twice and then 200, the call succeeds with
`retry_attempts = 2` after two transient failures and three attempts. -/
theorem analyze_success_retry_attempts_witness :
    (∀ i, i < 2 → isTransient (twice504ThenOk i) = true) ∧
    2 = (List.range 2).countP (fun i => isTransient (twice504ThenOk i)) ∧
    twice504ThenOk 2 = AttemptResult.ok "POSITIVE" ∧
    3 = 2 + 1 :=
  analyze_success_retry_attempts 3 1 twice504ThenOk "POSITIVE" 2 [1, 3 / 2] 3
    (by norm_num [analyze, analyzeGo, twice504ThenOk])

/-- Claim C4: when the first request fails at the connection level, the
dispatcher fails with the unreachable error after exactly one attempt, with
no retry and no back-off sleep, for every configured `maxRetries ≥ 1`. -/
theorem analyze_connection_error_no_retry (maxRetries : Nat) (b : ℚ)
    (results : Nat → AttemptResult) (message : String)
    (hM : 1 ≤ maxRetries) (hR : results 0 = AttemptResult.connectionError message) :
    analyze maxRetries b results = (Outcome.unreachable message, [], 1) := by
  obtain ⟨m, rfl⟩ := Nat.exists_eq_add_of_le hM
  simp [analyze, analyzeGo, hR, Nat.add_comm]

/-- Witness for C4: with five allowed attempts and a connection-refused
endpoint, the dispatcher stops after one attempt with no sleeps. -/
theorem analyze_connection_error_no_retry_witness :
    1 ≤ 5 ∧
    analyze 5 1 alwaysConnRefused = (Outcome.unreachable "connection refused", [], 1) :=
  ⟨by decide,
   analyze_connection_error_no_retry 5 1 alwaysConnRefused "connection refused"
     (by decide) rfl⟩

/-- Backend configuration: the two endpoint URLs read from the environment
(`settings.LAMBDA_ENDPOINT`, `settings.KUBERNETES_ENDPOINT` in
src/backend/config.py); either may be unset (`None`). -/
structure Settings where
  LAMBDA_ENDPOINT : Option String
  KUBERNETES_ENDPOINT : Option String
  deriving DecidableEq, Repr

/-- `SentimentAnalysisService._get_endpoint` (src/backend/services.py,
lines 102-109): maps a deployment name to its configured URL, `None` for an
unrecognized name. -/
def getEndpoint (s : Settings) (deployment : String) : Option String :=
  if deployment = "lambda" then s.LAMBDA_ENDPOINT
  else if deployment = "kubernetes" then s.KUBERNETES_ENDPOINT
  else none

/-- Python truthiness test `not endpoint` on an optional string: `None` and
the empty string are falsy. -/
def pyFalsyStr : Option String → Bool
  | none => true
  | some s => s.isEmpty

/-- The message of the `ValueError` raised by `analyze` when the endpoint
check fails (src/backend/services.py, line 39). -/
def unknownMsg (deployment : String) : String := "Unknown deployment: " ++ deployment

/-- The endpoint-resolution prologue of `SentimentAnalysisService.analyze`
(src/backend/services.py, lines 37-39): fetch the endpoint and raise
`ValueError` when it is `None` or empty. -/
def resolveEndpoint (s : Settings) (deployment : String) : Except String String :=
  let endpoint := getEndpoint s deployment
  if pyFalsyStr endpoint then Except.error (unknownMsg deployment)
  else Except.ok (endpoint.getD "")

/-- Claim C5 counterexample: with the kubernetes endpoint unset (its
shipped default), the recognized name "kubernetes" produces exactly the
same "Unknown deployment" error form as a completely unrecognized name —
there is no distinct unconfigured-target error the caller could tell
apart. -/
theorem resolveEndpoint_single_error_form :
    resolveEndpoint ⟨some "http://lambda.example", none⟩ "kubernetes"
      = Except.error (unknownMsg "kubernetes") ∧
    resolveEndpoint ⟨some "http://lambda.example", none⟩ "no-such-target"
      = Except.error (unknownMsg "no-such-target") :=
  ⟨rfl, rfl⟩

/-- Claim C5 (amended): target resolution fails with the one error
`ValueError("Unknown deployment: <name>")` both when the name is not a
recognized key and when the name is recognized but its endpoint URL is
unset or empty; the two cases are not distinguishable by the caller. -/
theorem resolveEndpoint_collapsed_errors (s : Settings) (d : String)
    (h : (d ≠ "lambda" ∧ d ≠ "kubernetes") ∨
         (d = "kubernetes" ∧
           (s.KUBERNETES_ENDPOINT = none ∨ s.KUBERNETES_ENDPOINT = some "")) ∨
         (d = "lambda" ∧
           (s.LAMBDA_ENDPOINT = none ∨ s.LAMBDA_ENDPOINT = some ""))) :
    resolveEndpoint s d = Except.error (unknownMsg d) := by
  rcases h with ⟨h1, h2⟩ | ⟨rfl, hk⟩ | ⟨rfl, hl⟩
  · simp [resolveEndpoint, getEndpoint, h1, h2, pyFalsyStr]
  · rcases hk with hk | hk
    · simp [resolveEndpoint, getEndpoint, hk, pyFalsyStr]
    · simp [resolveEndpoint, getEndpoint, hk, pyFalsyStr]
      rfl
  · rcases hl with hl | hl
    · simp [resolveEndpoint, getEndpoint, hl, pyFalsyStr]
    · simp [resolveEndpoint, getEndpoint, hl, pyFalsyStr]
      rfl

/-- Witness for C5 (amended): a configuration whose kubernetes URL is the
empty string still yields the "Unknown deployment" error for the recognized
name "kubernetes". -/
theorem resolveEndpoint_collapsed_errors_witness :
    resolveEndpoint ⟨none, some ""⟩ "kubernetes"
      = Except.error (unknownMsg "kubernetes") :=
  resolveEndpoint_collapsed_errors ⟨none, some ""⟩ "kubernetes"
    (Or.inr (Or.inl ⟨rfl, Or.inr rfl⟩))

/-- The string of the exception raised for each failure outcome of
`SentimentAnalysisService.analyze` (the raise sites at lines 80, 84, 95,
98 and 100 of src/backend/services.py); `none` for a success. -/
def outcomeDetail (maxRetries : Nat) (deployment : String) : Outcome → Option String
  | Outcome.success _ _ => none
  | Outcome.exhausted lastError =>
      some (lastError ++ " after " ++ toString maxRetries ++ " attempts")
  | Outcome.remoteError code message => some (toString code ++ ": " ++ message)
  | Outcome.unreachable message =>
      some ("Cannot reach " ++ deployment ++ " endpoint: " ++ message)
  | Outcome.loopFailed lastError => some ("Failed: " ++ lastError.getD "None")

/-- An HTTP error response of the backend: status code and detail string. -/
structure HttpResponse where
  status : Nat
  detail : String
  deriving DecidableEq, Repr

/-- The `/analyze` route handler `analyze_sentiment` (src/backend/main.py,
lines 70-106): it calls the service and converts any raised exception —
including the resolution `ValueError` — into `HTTPException(500, str(e))`. -/
def analyze_sentiment (s : Settings) (deployment : String) (maxRetries : Nat)
    (initialBackoff : ℚ) (results : Nat → AttemptResult) :
    Except HttpResponse Outcome :=
  match resolveEndpoint s deployment with
  | Except.error msg => Except.error ⟨500, msg⟩
  | Except.ok _ =>
    let outcome := (analyze maxRetries initialBackoff results).1
    match outcomeDetail maxRetries deployment outcome with
    | some detail => Except.error ⟨500, detail⟩
    | none => Except.ok outcome

/-- Claim C8 counterexample: a request whose target cannot be resolved is
rejected with HTTP status 500 — a 5xx-class response, not the claimed
4xx-class rejection. -/
theorem analyze_sentiment_misconfig_not_4xx :
    analyze_sentiment ⟨some "http://lambda.example", none⟩ "nosuch" 3 1 alwaysTimeout504
      = Except.error ⟨500, unknownMsg "nosuch"⟩ ∧
    ¬(400 ≤ 500 ∧ 500 ≤ 499) := by
  refine ⟨rfl, by omega⟩

/-- Claim C8 (amended): a request whose target cannot be resolved is
rejected immediately (for every behaviour of the remote endpoint) but with
HTTP 500, the same 5xx class as remote failures; transient remote failures
surface after retries are exhausted as HTTP 500 whose detail carries the
count of attempts made. -/
theorem analyze_sentiment_status_codes (s : Settings) (d : String)
    (maxRetries : Nat) (b : ℚ) (results : Nat → AttemptResult) :
    (resolveEndpoint s d = Except.error (unknownMsg d) →
      analyze_sentiment s d maxRetries b results
        = Except.error ⟨500, unknownMsg d⟩) ∧
    (∀ url lastError, resolveEndpoint s d = Except.ok url →
      (analyze maxRetries b results).1 = Outcome.exhausted lastError →
      analyze_sentiment s d maxRetries b results
        = Except.error
            ⟨500, lastError ++ " after " ++ toString maxRetries ++ " attempts"⟩) := by
  constructor
  · intro h
    simp [analyze_sentiment, h]
  · intro url lastError h1 h2
    simp [analyze_sentiment, h1, h2, outcomeDetail]

/-- Witness for C8 (amended): concretely, an unknown target is rejected
with status 500, and an endpoint that times out on both allowed attempts
yields status 500 with the attempt count in the detail. -/
theorem analyze_sentiment_status_codes_witness :
    analyze_sentiment ⟨some "http://lambda.example", none⟩ "nosuch" 3 1 alwaysTimeout504
      = Except.error ⟨500, unknownMsg "nosuch"⟩ ∧
    analyze_sentiment ⟨some "http://lambda.example", none⟩ "lambda" 2 1 alwaysTimeout504
      = Except.error ⟨500, msg504 ++ " after " ++ toString 2 ++ " attempts"⟩ :=
  ⟨(analyze_sentiment_status_codes ⟨some "http://lambda.example", none⟩ "nosuch"
      3 1 alwaysTimeout504).1 rfl,
   (analyze_sentiment_status_codes ⟨some "http://lambda.example", none⟩ "lambda"
      2 1 alwaysTimeout504).2 "http://lambda.example" msg504 rfl
      (by norm_num [analyze, analyzeGo, alwaysTimeout504])⟩

/-- Python truthiness test `if latency:` on the value returned by
`call_api` (src/load-testing/benchmark.py): `None` is falsy and a float is
falsy exactly when it equals 0.0. -/
def pyTruthy (latency : Option ℚ) : Bool :=
  match latency with
  | none => false
  | some x => decide (x ≠ 0)

/-- The collection loop of `run_benchmark` (src/load-testing/benchmark.py,
lines 51-68).  Its input is the per-call result of `call_api` in completion
order: `some t` for a call that returned latency `t`, `none` for a call
whose request raised (logged and converted to `None`).  A result is
appended to `latencies` only when it passes the `if latency:` test. -/
def run_benchmark (results : List (Option ℚ)) : List ℚ :=
  results.foldl
    (fun latencies latency =>
      if pyTruthy latency then latencies ++ [latency.getD 0] else latencies)
    []

/-- Number of calls in a benchmark trace that succeeded (returned a
latency, zero or not). -/
def successCount (results : List (Option ℚ)) : Nat :=
  results.countP (fun o => o.isSome)

/-- `statistics.mean`: arithmetic mean. -/
def mean (latencies : List ℚ) : ℚ := latencies.sum / (latencies.length : ℚ)

/-- `statistics.median`: middle element of the sorted data, or the average
of the two middle elements for even length. -/
def median (latencies : List ℚ) : ℚ :=
  let s := List.insertionSort (· ≤ ·) latencies
  let n := s.length
  if n % 2 = 1 then s.getD (n / 2) 0
  else (s.getD (n / 2 - 1) 0 + s.getD (n / 2) 0) / 2

/-- Python builtin `min` on a non-empty list. -/
def pyMin : List ℚ → ℚ
  | [] => 0
  | x :: xs => xs.foldl min x

/-- Python builtin `max` on a non-empty list. -/
def pyMax : List ℚ → ℚ
  | [] => 0
  | x :: xs => xs.foldl max x

/-- One cut point of `statistics.quantiles(data, n=n)` with the default
method `exclusive` (CPython's statistics module): for already-sorted
`data` of length `ld` and `1 ≤ i ≤ n - 1`, interpolate around position
`i * (ld + 1) / n` with the index clamped into `1 .. ld - 1`. -/
def quantilePoint (data : List ℚ) (n : Nat) (i : Nat) : ℚ :=
  let ld := data.length
  let m := ld + 1
  let j0 := i * m / n
  let j := if j0 < 1 then 1 else if j0 > ld - 1 then ld - 1 else j0
  let delta : Int := (i * m : Int) - (j * n : Int)
  (data.getD (j - 1) 0 * ((n : ℚ) - (delta : ℚ)) + data.getD j 0 * (delta : ℚ))
    / (n : ℚ)

/-- `statistics.quantiles(data, n=n)` (default method `exclusive`): sorts
the data, raises `StatisticsError` for fewer than two data points, and
returns the `n - 1` cut points. -/
def quantilesExclusive (data : List ℚ) (n : Nat) : Except String (List ℚ) :=
  let sortedData := List.insertionSort (· ≤ ·) data
  if sortedData.length < 2 then
    Except.error "must have at least two data points"
  else
    Except.ok ((List.range' 1 (n - 1)).map (quantilePoint sortedData n))

/-- The summary statistics printed by `log_stats`. -/
structure StatsSummary where
  count : Nat
  avg : ℚ
  min : ℚ
  max : ℚ
  p50 : ℚ
  p95 : ℚ
  deriving DecidableEq, Repr

/-- Result of one `log_stats` call: the empty-input early return, an
uncaught `StatisticsError` escaping from `statistics.quantiles`, or the
reported summary block. -/
inductive StatsOutcome where
  | noData
  | statisticsError (message : String)
  | stats (s : StatsSummary)
  deriving DecidableEq, Repr

/-- The statistics reducer `log_stats` (src/load-testing/benchmark.py,
lines 70-96): report "no successful requests" on an empty collection,
otherwise compute avg, p50, `p95 = statistics.quantiles(latencies, n=20)[18]`,
min and max; a `StatisticsError` raised by `quantiles` propagates. -/
def log_stats (latencies : List ℚ) : StatsOutcome :=
  if latencies.isEmpty then StatsOutcome.noData
  else
    match quantilesExclusive latencies 20 with
    | Except.error e => StatsOutcome.statisticsError e
    | Except.ok qs =>
        StatsOutcome.stats
          { count := latencies.length
            avg := mean latencies
            min := pyMin latencies
            max := pyMax latencies
            p50 := median latencies
            p95 := qs.getD 18 0 }

/-- The reported p95 of a `log_stats` call, when a summary was produced. -/
def p95OfOutcome : StatsOutcome → Option ℚ
  | StatsOutcome.stats s => some s.p95
  | _ => none

/-- Whether a `log_stats` call produced a summary block. -/
def isStats : StatsOutcome → Bool
  | StatsOutcome.stats _ => true
  | _ => false

/-- The 20 latency samples 0.1, 0.2, ..., 2.0 of the spec scenario. -/
def samples20 : List ℚ :=
  [1/10, 2/10, 3/10, 4/10, 5/10, 6/10, 7/10, 8/10, 9/10, 10/10,
   11/10, 12/10, 13/10, 14/10, 15/10, 16/10, 17/10, 18/10, 19/10, 20/10]

/-- The winner line of the final verdict in `main`
(src/load-testing/benchmark.py, lines 176-182). -/
structure Verdict where
  winner : String
  speedup : ℚ
  deriving DecidableEq, Repr

/-- The comparison in `main`: Kubernetes wins with ratio
`lambda_avg / k8s_avg` when `k8s_avg < lambda_avg`, otherwise Lambda is
declared the winner with ratio `k8s_avg / lambda_avg`. -/
def finalVerdict (lambdaAvg k8sAvg : ℚ) : Verdict :=
  if k8sAvg < lambdaAvg then ⟨"Kubernetes", lambdaAvg / k8sAvg⟩
  else ⟨"AWS Lambda", k8sAvg / lambdaAvg⟩

/-- The comparison block of `main` (src/load-testing/benchmark.py, lines
171-184): only executed when both latency collections are truthy
(non-empty); compares the two means. -/
def compareBenchmarks (lambdaLatencies k8sLatencies : List ℚ) : Option Verdict :=
  if lambdaLatencies ≠ [] ∧ k8sLatencies ≠ [] then
    some (finalVerdict (mean lambdaLatencies) (mean k8sLatencies))
  else none

/-- The body of the collection loop of `run_benchmark`, per call result:
the appended latency when `if latency:` passes, nothing otherwise. -/
def keepLatency (latency : Option ℚ) : Option ℚ :=
  if pyTruthy latency then some (latency.getD 0) else none

/-- The collection loop of `run_benchmark` keeps exactly the results that
pass the truthiness test, in completion order. -/
theorem run_benchmark_eq_filterMap (results : List (Option ℚ)) :
    run_benchmark results = results.filterMap keepLatency := by
  have aux : ∀ (rs : List (Option ℚ)) (acc : List ℚ),
      rs.foldl (fun latencies latency =>
        if pyTruthy latency then latencies ++ [latency.getD 0] else latencies) acc
      = acc ++ rs.filterMap keepLatency := by
    intro rs
    induction rs with
    | nil => intro acc; simp
    | cons o t ih =>
      intro acc
      by_cases ho : pyTruthy o
      · simp [List.foldl_cons, ho, ih, List.filterMap_cons, keepLatency]
      · simp [List.foldl_cons, ho, ih, List.filterMap_cons, keepLatency]
  simpa using aux results []

/-- Claim C10: a call that succeeds with a measured latency of exactly 0.0
is excluded from the returned latency collection by the `if latency:`
truthiness test: the collection length plus the number of zero-latency
successes equals the number of successful calls, so whenever a zero-latency
success occurs the collection is strictly shorter than the success count. -/
theorem run_benchmark_zero_latency_excluded (results : List (Option ℚ)) :
    (run_benchmark results).length
        + results.countP (fun o => o = some (0 : ℚ)) = successCount results ∧
    (some (0 : ℚ) ∈ results →
      (run_benchmark results).length < successCount results) := by
  have h1 : (run_benchmark results).length
      + results.countP (fun o => o = some (0 : ℚ)) = successCount results := by
    rw [run_benchmark_eq_filterMap]
    induction results with
    | nil => rfl
    | cons o t ih =>
      simp only [successCount] at ih ⊢
      cases o with
      | none =>
        simpa [show keepLatency none = none from rfl] using ih
      | some x =>
        by_cases hx : x = 0
        · subst hx
          have hk : keepLatency (some (0 : ℚ)) = none := by
            simp [keepLatency, pyTruthy]
          rw [List.filterMap_cons, hk]
          simp only [List.countP_cons]
          norm_num
          omega
        · have hk : keepLatency (some x) = some x := by
            simp [keepLatency, pyTruthy, hx]
          rw [List.filterMap_cons, hk]
          simp only [List.countP_cons, List.length_cons]
          have hd : (decide (some x = some (0 : ℚ))) = false := by
            simpa using hx
          rw [hd]
          norm_num
          omega
  refine ⟨h1, ?_⟩
  intro hmem
  have hpos : 0 < results.countP (fun o => o = some (0 : ℚ)) :=
    List.countP_pos_iff.mpr ⟨some 0, hmem, by simp⟩
  omega

/-- Witness for C10: a single call succeeding with latency 0.0 yields an
empty collection although one call succeeded. -/
theorem run_benchmark_zero_latency_excluded_witness :
    (run_benchmark [some 0]).length < successCount [some 0] :=
  (run_benchmark_zero_latency_excluded [some 0]).2 (List.mem_singleton.mpr rfl)

/-- Claim C7 counterexample: the value returned by `run_benchmark` is only
the latency list — two all-failing runs of different sizes (2 and 3 failed
calls) return the identical empty collection, so the result carries no
error count equal to the number of failures. -/
theorem run_benchmark_result_lacks_error_count :
    run_benchmark [none, none] = [] ∧
    run_benchmark [none, none, none] = [] ∧
    ([none, none] : List (Option ℚ)).length
      ≠ ([none, none, none] : List (Option ℚ)).length :=
  ⟨rfl, rfl, by norm_num⟩

/-- Claim C7 (amended): when every call of a benchmark run fails,
`run_benchmark` returns the empty latency collection (no failed call
aborts the batch); failures are only logged and no error count is part of
the returned value. -/
theorem run_benchmark_all_failures_empty (results : List (Option ℚ))
    (h : ∀ o ∈ results, o = none) :
    run_benchmark results = [] := by
  rw [run_benchmark_eq_filterMap]
  apply List.filterMap_eq_nil_iff.mpr
  intro o ho
  rw [h o ho]
  rfl

/-- Witness for C7 (amended): two failing calls produce the empty
collection. -/
theorem run_benchmark_all_failures_empty_witness :
    run_benchmark [none, none] = [] :=
  run_benchmark_all_failures_empty [none, none] (by intro o ho; simpa using ho)

/-- For a sample collection of length 20, the reported p95 is the
interpolated 19th cut point of `statistics.quantiles(·, n=20)` with the
default method `exclusive`: with `d` the ascending-sorted samples it equals
`(d[18] + 19 * d[19]) / 20`. -/
theorem log_stats_p95_of_length20 (l : List ℚ) (h : l.length = 20) :
    p95OfOutcome (log_stats l) =
      some (((List.insertionSort (· ≤ ·) l).getD 18 0
        + 19 * (List.insertionSort (· ≤ ·) l).getD 19 0) / 20) := by
  have hne : l.isEmpty = false := by
    cases l with
    | nil => simp at h
    | cons a t => rfl
  have hd : (List.insertionSort (· ≤ ·) l).length = 20 := by
    rw [List.length_insertionSort]
    exact h
  simp only [log_stats, hne, Bool.false_eq_true, if_false, quantilesExclusive]
  rw [if_neg (by rw [hd]; norm_num)]
  simp only [p95OfOutcome]
  congr 1
  rw [List.getD_eq_getElem?_getD, List.getElem?_map,
      List.getElem?_range' 1 1 (by norm_num)]
  simp only [Option.map_some', Option.getD_some]
  norm_num
  simp only [quantilePoint, hd]
  norm_num
  ring

/-- Claim C2 counterexample: for the 20 samples 0.1, 0.2, ..., 2.0, the
reducer reports p95 = 1.995 (the interpolated exclusive quantile), not the
19th ascending value 1.9 demanded by the nearest-rank reading. -/
theorem log_stats_p95_twenty_samples :
    p95OfOutcome (log_stats samples20) = some (399 / 200) ∧
    ((399 : ℚ) / 200 ≠ 19 / 10) := by
  constructor
  · rw [log_stats_p95_of_length20 samples20 (by rfl)]
    norm_num [samples20, List.insertionSort, List.orderedInsert]
  · norm_num

/-- Claim C2 (amended): the reducer computes p95 as
`statistics.quantiles(latencies, n=20)[18]` with Python's default
`exclusive` interpolation, not by nearest rank: for every 20-sample
collection the reported p95 is `(d[18] + 19 * d[19]) / 20` over the
ascending-sorted samples `d` — in particular 1.995, not 1.9, for the
samples 0.1 .. 2.0. -/
theorem log_stats_p95_interpolated (l : List ℚ) (h : l.length = 20) :
    p95OfOutcome (log_stats l) =
      some (((List.insertionSort (· ≤ ·) l).getD 18 0
        + 19 * (List.insertionSort (· ≤ ·) l).getD 19 0) / 20) :=
  log_stats_p95_of_length20 l h

/-- Witness for C2 (amended): the interpolation formula applied to the
concrete 20-sample scenario. -/
theorem log_stats_p95_interpolated_witness :
    p95OfOutcome (log_stats samples20) =
      some (((List.insertionSort (· ≤ ·) samples20).getD 18 0
        + 19 * (List.insertionSort (· ≤ ·) samples20).getD 19 0) / 20) :=
  log_stats_p95_interpolated samples20 rfl

/-- Claim C6 counterexample: on the one-element collection [1.0] the
reducer does not return a summary at all — the `statistics.quantiles` call
raises `StatisticsError` ("must have at least two data points"). -/
theorem log_stats_singleton_raises :
    log_stats [(1 : ℚ)]
      = StatsOutcome.statisticsError "must have at least two data points" ∧
    isStats (log_stats [(1 : ℚ)]) = false :=
  ⟨rfl, rfl⟩

/-- Claim C6 (amended): for every single-element sample collection [x] the
reducer fails with the `StatisticsError` raised by `statistics.quantiles`,
which requires at least two data points; no summary with
`avg = min = max = p50 = p95 = x` is produced. -/
theorem log_stats_singleton_statistics_error (x : ℚ) :
    log_stats [x]
      = StatsOutcome.statisticsError "must have at least two data points" :=
  rfl

/-- Witness for C6 (amended): the singleton failure at the sample 3.7. -/
theorem log_stats_singleton_statistics_error_witness :
    log_stats [(37 : ℚ) / 10]
      = StatsOutcome.statisticsError "must have at least two data points" :=
  log_stats_singleton_statistics_error (37 / 10)

/-- Claim C9: for two non-empty latency collections with distinct averages,
the final verdict declares as speed winner the target with the strictly
lower average and reports the speed ratio `max(avg_a, avg_b) /
min(avg_a, avg_b)`. -/
theorem compareBenchmarks_speed_winner (l k : List ℚ) (hl : l ≠ []) (hk : k ≠ [])
    (h : mean l ≠ mean k) :
    compareBenchmarks l k = some (finalVerdict (mean l) (mean k)) ∧
    ((finalVerdict (mean l) (mean k)).winner = "Kubernetes" ↔ mean k < mean l) ∧
    ((finalVerdict (mean l) (mean k)).winner = "AWS Lambda" ↔ mean l < mean k) ∧
    (finalVerdict (mean l) (mean k)).speedup
      = max (mean l) (mean k) / min (mean l) (mean k) := by
  have hKA : ("AWS Lambda" : String) ≠ "Kubernetes" := by decide
  have hAK : ("Kubernetes" : String) ≠ "AWS Lambda" := by decide
  refine ⟨by simp [compareBenchmarks, hl, hk], ?_, ?_, ?_⟩
  · rcases h.lt_or_lt with hc | hc
    · rw [finalVerdict, if_neg (asymm hc)]
      exact iff_of_false hKA (asymm hc)
    · rw [finalVerdict, if_pos hc]
      exact iff_of_true rfl hc
  · rcases h.lt_or_lt with hc | hc
    · rw [finalVerdict, if_neg (asymm hc)]
      exact iff_of_true rfl hc
    · rw [finalVerdict, if_pos hc]
      exact iff_of_false hAK (asymm hc)
  · rcases h.lt_or_lt with hc | hc
    · rw [finalVerdict, if_neg (asymm hc)]
      show mean k / mean l = _
      rw [max_eq_right hc.le, min_eq_left hc.le]
    · rw [finalVerdict, if_pos hc]
      show mean l / mean k = _
      rw [max_eq_left hc.le, min_eq_right hc.le]

/-- Witness for C9: with average latencies 2 (lambda) and 1 (kubernetes),
Kubernetes is declared the winner and the ratio is `max / min`. -/
theorem compareBenchmarks_speed_winner_witness :
    compareBenchmarks [2] [1] = some (finalVerdict (mean [2]) (mean [1])) ∧
    ((finalVerdict (mean [2]) (mean [1])).winner = "Kubernetes"
      ↔ mean [1] < mean [2]) ∧
    ((finalVerdict (mean [2]) (mean [1])).winner = "AWS Lambda"
      ↔ mean [2] < mean [1]) ∧
    (finalVerdict (mean [2]) (mean [1])).speedup
      = max (mean [2]) (mean [1]) / min (mean [2]) (mean [1]) :=
  compareBenchmarks_speed_winner [2] [1] (by simp) (by simp) (by norm_num [mean])
